import Mathlib

/-!
Verification of the tutoring-pipeline core (session store, classifiers,
timeline synthesis, orchestrator graph) against its specification.
Every definition below is a shallow embedding of the corresponding Python
source in `src/backend/`; machine reals (Python floats / datetimes) are
modelled as rationals, Python dicts either as association lists (where the
source iterates over them) or as function maps (where only key lookup and
update occur).
-/

namespace Agent

/-! ### Generic helpers shared by several embeddings -/

/-- Python `max(values)` over a list of rationals (`0` for the empty list,
which never occurs at the call sites). -/
def listMax : List ℚ → ℚ
  | [] => 0
  | x :: xs => xs.foldl max x

/-- Python `max(d, key=d.get)` over an insertion-ordered dict rendered as an
association list: the first key attaining the maximal value. -/
def argmaxFirst {α : Type} (l : List (α × ℚ)) (d : α) : α :=
  match l with
  | [] => d
  | p :: rest => (rest.foldl (fun best q => if q.2 > best.2 then q else best) p).1

/-- Value lookup in an association list, with a default (Python `d.get(k, d0)`;
keys are unique, the first match wins). -/
def assocGetD {α β : Type} [DecidableEq α] (l : List (α × β)) (k : α) (d0 : β) : β :=
  match l with
  | [] => d0
  | p :: rest => if p.1 = k then p.2 else assocGetD rest k d0

/-- Substring occurrence on character lists: does `needle` occur contiguously
inside `hay`? -/
def substrL (needle : List Char) : List Char → Bool
  | [] => needle.isEmpty
  | c :: rest => needle.isPrefixOf (c :: rest) || substrL needle rest

/-- Python `needle in haystack` on strings: substring containment. -/
def substr (needle hay : String) : Bool :=
  substrL needle.toList hay.toList

/-- Python `text.lower()` (ASCII case folding suffices for the tables). -/
def pyLower (s : String) : String :=
  String.mk (s.toList.map Char.toLower)

/-- Python whitespace as stripped by `str.strip()` (ASCII range). -/
def isPyStripWhitespace (c : Char) : Bool :=
  c == ' ' || c == '\t' || c == '\n' || c == '\r' || c == '\x0b' || c == '\x0c'

/-- Python `not text.strip()`: the text contains no non-whitespace character. -/
def pyIsBlank (s : String) : Bool :=
  s.toList.all isPyStripWhitespace

/-! ### Enumerations from `src/backend/models/schemas.py` -/

inductive Language
  | ENGLISH | HINDI | GUJARATI | SPANISH | FRENCH
deriving DecidableEq

inductive Persona
  | FRIENDLY | PROFESSIONAL | ENCOURAGING | STRICT
deriving DecidableEq

inductive Subject
  | MATH | SCIENCE | PROGRAMMING | GENERAL | HISTORY | LITERATURE
deriving DecidableEq

inductive Intent
  | ASK | CHECK_HOMEWORK | START_QUIZ | SMALL_TALK | ESCALATE
deriving DecidableEq

inductive Emotion
  | CALM | ENCOURAGING | CORRECTIVE | EXCITED | NEUTRAL
deriving DecidableEq

inductive GestureTag
  | AFFIRMATIVE | CORRECTIVE | ILLUSTRATIVE | QUESTIONING | POINTING
deriving DecidableEq

/-! ### Session store (`src/backend/agents/session_manager.py`)

Timestamps (Python `datetime`) are integers counting seconds;
`timedelta(minutes=1)` is `60`, `timedelta(hours=h)` is `h * 3600`. -/

/-- `MemoryEntry` (schemas.py line 188); the open metadata map is modelled as
a string association list. -/
structure MemoryEntry where
  timestamp : ℤ
  type_ : String
  content : String
  metadata : List (String × String)
deriving DecidableEq

/-- `ContextWindow` (schemas.py line 194). -/
structure ContextWindow where
  session_id : String
  entries : List MemoryEntry
  max_size : ℕ
deriving DecidableEq

/-- The per-session rate-limit record created in `create_session`
(session_manager.py lines 51-55). -/
structure RateLimit where
  requests : ℕ
  reset_time : ℤ
  max_requests : ℕ
deriving DecidableEq

/-- The per-session dict stored in `SessionManager.sessions`; only the fields
read by the verified operations are modelled (`cleanup_old_sessions` reads
`last_activity` only). -/
structure SessionData where
  user_id : String
  created_at : ℤ
  last_activity : ℤ
deriving DecidableEq

/-- `SessionManager.__init__` state: `sessions` is kept as an ordered
association list because `cleanup_old_sessions` iterates it; the other two
dicts are only ever indexed by key, so a function map is used. -/
structure SessionManager where
  sessions : List (String × SessionData)
  context_windows : String → Option ContextWindow
  rate_limits : String → Option RateLimit

/-- Python slice `entries[-m:]` (keeps the whole list when `m = 0`, a Python
negative-indexing quirk). -/
def pySliceLast {α : Type} (l : List α) (m : ℕ) : List α :=
  if m = 0 then l else l.drop (l.length - m)

/-- The window mutation inside `add_to_context` (session_manager.py lines
125-129): append the entry, then cut back to the last `max_size` entries when
over capacity. -/
def windowAppend (w : ContextWindow) (e : MemoryEntry) : ContextWindow :=
  let entries := w.entries ++ [e]
  if entries.length > w.max_size then
    { w with entries := pySliceLast entries w.max_size }
  else
    { w with entries := entries }

/-- `SessionManager.add_to_context` (lines 102-148): returns `false` when the
session has no context window, otherwise appends into its window. The mirror
copy into `sessions[sid]["context_window"]` (a serialization of the same
entries) is not separately modelled. -/
def add_to_context (mgr : SessionManager) (session_id : String) (e : MemoryEntry) :
    SessionManager × Bool :=
  match mgr.context_windows session_id with
  | none => (mgr, false)
  | some w =>
    ({ mgr with context_windows :=
        fun k => if k = session_id then some (windowAppend w e) else mgr.context_windows k },
      true)

/-- Folding a sequence of `add_to_context` calls (each a session id and an
entry) through the manager. -/
def addAll (mgr : SessionManager) (calls : List (String × MemoryEntry)) : SessionManager :=
  calls.foldl (fun m c => (add_to_context m c.1 c.2).1) mgr

/-- The window-reset step of `check_rate_limit` (session_manager.py lines
179-182): when the current time has passed the reset timestamp, zero the
counter and start a fresh 60-second window. -/
def resetIfPassed (rl : RateLimit) (now : ℤ) : RateLimit :=
  if now ≥ rl.reset_time then { rl with requests := 0, reset_time := now + 60 } else rl

/-- The per-record body of `check_rate_limit` (lines 176-190): reset on
window expiry, reject when the counter has reached `max_requests`, otherwise
increment and admit. -/
def check_rate_limit_rl (rl : RateLimit) (now : ℤ) : RateLimit × Bool :=
  let rl := resetIfPassed rl now
  if rl.requests ≥ rl.max_requests then (rl, false)
  else ({ rl with requests := rl.requests + 1 }, true)

/-- `SessionManager.check_rate_limit` (lines 170-194): unknown sessions are
admitted without touching any state. -/
def check_rate_limit (mgr : SessionManager) (session_id : String) (now : ℤ) :
    SessionManager × Bool :=
  match mgr.rate_limits session_id with
  | none => (mgr, true)
  | some rl =>
    let r := check_rate_limit_rl rl now
    ({ mgr with rate_limits :=
        fun k => if k = session_id then some r.1 else mgr.rate_limits k },
      r.2)

/-- Running `check_rate_limit_rl` over a list of call times, counting how
many calls were admitted. -/
def runRate : RateLimit → List ℤ → RateLimit × ℕ
  | rl, [] => (rl, 0)
  | rl, t :: ts =>
    ((runRate (check_rate_limit_rl rl t).1 ts).1,
      (if (check_rate_limit_rl rl t).2 then 1 else 0) + (runRate (check_rate_limit_rl rl t).1 ts).2)

/-- `SessionManager.cleanup_old_sessions` (lines 215-236): collect the ids of
sessions whose `last_activity` is strictly before `now - max_age_hours`,
pop each collected id from all three stores, and return the removed count. -/
def cleanup_old_sessions (mgr : SessionManager) (now : ℤ) (max_age_hours : ℤ) :
    SessionManager × ℕ :=
  let cutoff_time := now - max_age_hours * 3600
  let sessions_to_remove :=
    (mgr.sessions.filter (fun p => decide (p.2.last_activity < cutoff_time))).map (fun p => p.1)
  ({ sessions := mgr.sessions.filter (fun p => decide (p.1 ∉ sessions_to_remove)),
     context_windows := fun k => if k ∈ sessions_to_remove then none else mgr.context_windows k,
     rate_limits := fun k => if k ∈ sessions_to_remove then none else mgr.rate_limits k },
    sessions_to_remove.length)

/-! ### Regular-expression model

The intent/subject/language tables use `re.search` with three shapes of
pattern: a plain literal (search = substring test), `A.*B` (two literals
separated by `.*`, where `.` does not match a newline), and the arithmetic
pattern `\d+\s*[+\-*/]\s*\d+`. -/

/-- Does `b` occur in `l` with only non-newline characters before it?  This
is `.*b` matching a prefix of `l` under `re.search` semantics (`.` does not
match `\n`). -/
def occursBeforeNL (b : List Char) : List Char → Bool
  | [] => b.isPrefixOf ([] : List Char)
  | c :: rest => b.isPrefixOf (c :: rest) || (c != '\n' && occursBeforeNL b rest)

/-- `re.search("a.*b", s)` for non-empty literals `a`, `b`: some occurrence
of `a` is followed, with no intervening newline, by an occurrence of `b`. -/
def seq2Search (a b : List Char) : List Char → Bool
  | [] => false
  | c :: rest =>
    (a.isPrefixOf (c :: rest) && occursBeforeNL b ((c :: rest).drop a.length))
      || seq2Search a b rest

/-- Python regex `\s` on ASCII input. -/
def isPyWhitespace (c : Char) : Bool :=
  c == ' ' || c == '\t' || c == '\n' || c == '\r' || c == '\x0b' || c == '\x0c'

/-- The operator class `[+\-*/]` of the arithmetic pattern. -/
def isArithOp (c : Char) : Bool :=
  c == '+' || c == '-' || c == '*' || c == '/'

/-- Drop the longest prefix of characters satisfying `p`. -/
def skipWhile (p : Char → Bool) : List Char → List Char
  | [] => []
  | c :: rest => if p c then skipWhile p rest else c :: rest

/-- Does `\d+\s*[+\-*/]\s*\d+` match starting exactly at the head of `l`?
Because the digit, whitespace and operator classes are disjoint, maximal
munch is equivalent to the backtracking semantics. -/
def arithAt (l : List Char) : Bool :=
  match l with
  | [] => false
  | c :: rest =>
    c.isDigit &&
      (match skipWhile isPyWhitespace (skipWhile Char.isDigit rest) with
       | [] => false
       | op :: rest2 =>
         isArithOp op &&
           (match skipWhile isPyWhitespace rest2 with
            | [] => false
            | d :: _ => d.isDigit))

/-- `re.search` for the arithmetic pattern: a match starting at any position. -/
def arithSearch : List Char → Bool
  | [] => false
  | c :: rest => arithAt (c :: rest) || arithSearch rest

/-- The three pattern shapes appearing in the classifier tables. -/
inductive Pat
  | lit (s : String)
  | seq2 (a b : String)
  | arith

/-- `re.search(pattern, s)` for the supported pattern shapes. -/
def re_search (p : Pat) (s : String) : Bool :=
  match p with
  | .lit t => substr t s
  | .seq2 a b => seq2Search a.toList b.toList s.toList
  | .arith => arithSearch s.toList

/-! ### Intent router (`src/backend/agents/intent_router.py`) -/

/-- Dict iteration order of `self.intent_patterns` (lines 13-88). -/
def intentList : List Intent :=
  [.ASK, .CHECK_HOMEWORK, .START_QUIZ, .SMALL_TALK, .ESCALATE]

/-- `intent_patterns[i]['keywords']`. -/
def intent_keywords : Intent → List String
  | .ASK => ["what", "how", "why", "when", "where", "explain", "tell me", "show me", "help"]
  | .CHECK_HOMEWORK => ["check", "grade", "review", "homework", "assignment", "solution", "answer"]
  | .START_QUIZ => ["quiz", "test", "practice", "questions", "exam", "challenge"]
  | .SMALL_TALK => ["hello", "hi", "how are you", "good morning", "good afternoon", "thanks", "thank you"]
  | .ESCALATE => ["help", "stuck", "confused", "don\x27t understand", "too hard", "difficult"]

/-- `intent_patterns[i]['patterns']`. -/
def intent_patterns : Intent → List Pat
  | .ASK => [.lit "what is", .lit "how do", .lit "why does", .lit "explain",
      .lit "tell me about", .lit "show me how", .lit "help me understand",
      .lit "can you explain", .seq2 "what does" "mean", .seq2 "how does" "work"]
  | .CHECK_HOMEWORK => [.lit "check my", .lit "grade my", .lit "review my", .lit "homework",
      .lit "assignment", .lit "is this correct", .lit "did i get this right",
      .lit "check my work", .lit "verify my answer"]
  | .START_QUIZ => [.lit "give me a quiz", .lit "quiz me on", .lit "test my knowledge",
      .lit "practice questions", .lit "challenge me", .lit "create a quiz",
      .lit "generate questions", .lit "quiz time"]
  | .SMALL_TALK => [.lit "hello", .lit "hi there", .lit "how are you", .lit "good morning",
      .lit "good afternoon", .lit "thanks", .lit "thank you", .lit "nice to meet you",
      .lit "how\x27s it going"]
  | .ESCALATE => [.lit "i\x27m stuck", .lit "i don\x27t understand", .lit "this is too hard",
      .lit "it\x27s too difficult", .lit "i need help", .lit "can\x27t figure out",
      .lit "i\x27m confused", .lit "this doesn\x27t make sense"]

/-- `intent_patterns[i]['priority']`. -/
def intent_priority : Intent → String
  | .SMALL_TALK => "background"
  | .ESCALATE => "urgent"
  | _ => "normal"

/-- `self.priority_weights` (lines 177-181). -/
def priority_weights : List (String × ℚ) :=
  [("urgent", 3), ("normal", 2), ("background", 1)]

/-- The per-intent score of `classify_intent` (lines 193-214): 0.3 per
keyword hit plus 0.5 per pattern hit, multiplied by the priority weight
(`.get(priority, 1)`). -/
def intentScore (text_lower : String) (i : Intent) : ℚ :=
  let keyword_matches := ((intent_keywords i).filter (fun k => substr k text_lower)).length
  let score : ℚ := if keyword_matches > 0 then keyword_matches * 0.3 else 0
  let pattern_matches := ((intent_patterns i).filter (fun p => re_search p text_lower)).length
  let score := if pattern_matches > 0 then score + pattern_matches * 0.5 else score
  score * assocGetD priority_weights (intent_priority i) 1

/-- A context-window entry as the router reads it: the `type` and `content`
keys of the serialized memory entries. -/
structure CtxEntry where
  type_ : String
  content : String
deriving DecidableEq

/-- `_analyze_context_for_intent` (lines 377-401): look at the last five
entries of type `intent`; homework mentions hint `CHECK_HOMEWORK`, quiz
mentions hint `START_QUIZ`. -/
def _analyze_context_for_intent (context : List CtxEntry) : Option Intent :=
  if context.isEmpty then none
  else
    let recent_intents :=
      ((context.drop (context.length - 5)).filter (fun e => decide (e.type_ = "intent"))).map
        (fun e => e.content)
    if recent_intents.any (fun s => substr "homework" (pyLower s)) then some .CHECK_HOMEWORK
    else if recent_intents.any (fun s => substr "quiz" (pyLower s)) then some .START_QUIZ
    else none

/-- `classify_intent` (lines 183-239): returns (intent, confidence,
priority). -/
def classify_intent (text : String) (context : List CtxEntry) : Intent × ℚ × String :=
  if pyIsBlank text then (.ASK, 0, "normal")
  else
    let text_lower := pyLower text
    let intent_scores := intentList.map (fun i => (i, intentScore text_lower i))
    let r :=
      if listMax (intent_scores.map (fun p => p.2)) = 0 then
        ((Intent.ASK, (0.1 : ℚ)), "normal")
      else
        let best_intent := argmaxFirst intent_scores .ASK
        ((best_intent, min (assocGetD intent_scores best_intent 0 / 2) 1),
          intent_priority best_intent)
    let confidence :=
      if context.isEmpty then r.1.2
      else
        match _analyze_context_for_intent context with
        | some hint => if hint ≠ r.1.1 then max (r.1.2 - 0.2) 0.1 else r.1.2
        | none => r.1.2
    (r.1.1, confidence, r.2)

/-- Dict iteration order of `self.subject_patterns` (lines 91-174). -/
def subjectList : List Subject :=
  [.MATH, .SCIENCE, .PROGRAMMING, .HISTORY, .LITERATURE]

/-- `subject_patterns[s]['keywords']`. -/
def subject_keywords : Subject → List String
  | .MATH => ["math", "mathematics", "algebra", "geometry", "calculus", "equation", "solve", "calculate"]
  | .SCIENCE => ["science", "physics", "chemistry", "biology", "experiment", "theory", "hypothesis"]
  | .PROGRAMMING => ["programming", "code", "python", "javascript", "java", "function", "variable", "algorithm"]
  | .HISTORY => ["history", "historical", "war", "revolution", "ancient", "medieval", "timeline"]
  | .LITERATURE => ["literature", "book", "novel", "poetry", "author", "character", "theme", "plot"]
  | .GENERAL => []

/-- `subject_patterns[s]['patterns']`. -/
def subject_patterns : Subject → List Pat
  | .MATH => [.arith, .lit "equation", .lit "solve for", .lit "calculate", .lit "geometry",
      .lit "algebra", .lit "calculus", .lit "derivative", .lit "integral", .lit "quadratic",
      .lit "polynomial"]
  | .SCIENCE => [.lit "physics", .lit "chemistry", .lit "biology", .lit "experiment",
      .lit "theory", .lit "hypothesis", .lit "molecule", .lit "atom", .lit "force",
      .lit "energy", .lit "evolution", .lit "photosynthesis"]
  | .PROGRAMMING => [.lit "programming", .lit "coding", .lit "python", .lit "javascript",
      .lit "java", .lit "function", .lit "variable", .lit "algorithm", .lit "data structure",
      .lit "loop", .lit "if statement", .lit "class", .lit "object"]
  | .HISTORY => [.lit "history", .lit "historical", .lit "war", .lit "revolution",
      .lit "ancient", .lit "medieval", .lit "timeline", .lit "century", .lit "empire",
      .lit "civilization"]
  | .LITERATURE => [.lit "literature", .lit "book", .lit "novel", .lit "poetry", .lit "author",
      .lit "character", .lit "theme", .lit "plot", .lit "story", .lit "poem", .lit "writing"]
  | .GENERAL => []

/-- The per-subject score of `classify_subject` (lines 251-268): 0.4 per
keyword hit plus 0.6 per pattern hit. -/
def subjectScore (text_lower : String) (s : Subject) : ℚ :=
  let keyword_matches := ((subject_keywords s).filter (fun k => substr k text_lower)).length
  let score : ℚ := if keyword_matches > 0 then keyword_matches * 0.4 else 0
  if ((subject_patterns s).filter (fun p => re_search p text_lower)).length > 0 then
    score + ((subject_patterns s).filter (fun p => re_search p text_lower)).length * 0.6
  else score

/-- Build `subject_counts` as the source's dict comprehension does: keys in
first-occurrence order, counting repetitions. -/
def countOcc (acc : List (String × ℚ)) (s : String) : List (String × ℚ) :=
  if (acc.find? (fun p => decide (p.1 = s))).isSome then
    acc.map (fun p => if p.1 = s then (p.1, p.2 + 1) else p)
  else acc ++ [(s, 1)]

/-- The string-to-enum dict of `_analyze_context_for_subject` (lines 424-431),
accessed with `.get` (absent keys give `None`). -/
def subject_mapping (s : String) : Option Subject :=
  if s = "math" then some .MATH
  else if s = "science" then some .SCIENCE
  else if s = "programming" then some .PROGRAMMING
  else if s = "history" then some .HISTORY
  else if s = "literature" then some .LITERATURE
  else if s = "general" then some .GENERAL
  else none

/-- `_analyze_context_for_subject` (lines 403-438): most frequent subject
label among the last five entries of type `subject` (first key reaching the
maximal count wins), mapped through `subject_mapping`. -/
def _analyze_context_for_subject (context : List CtxEntry) : Option Subject :=
  if context.isEmpty then none
  else
    let recent_subjects :=
      ((context.drop (context.length - 5)).filter (fun e => decide (e.type_ = "subject"))).map
        (fun e => e.content)
    let subject_counts := recent_subjects.foldl countOcc []
    match subject_counts with
    | [] => none
    | _ => subject_mapping (pyLower (argmaxFirst subject_counts ""))

/-- `classify_subject` (lines 241-290): returns (subject, confidence). -/
def classify_subject (text : String) (context : List CtxEntry) : Subject × ℚ :=
  if pyIsBlank text then (.GENERAL, 0)
  else
    let text_lower := pyLower text
    let subject_scores := subjectList.map (fun s => (s, subjectScore text_lower s))
    let r :=
      if listMax (subject_scores.map (fun p => p.2)) = 0 then
        (Subject.GENERAL, (0.1 : ℚ))
      else
        let best_subject := argmaxFirst subject_scores .GENERAL
        (best_subject, min (assocGetD subject_scores best_subject 0 / 2) 1)
    let confidence :=
      if context.isEmpty then r.2
      else
        match _analyze_context_for_subject context with
        | some hint => if hint ≠ r.1 then max (r.2 - 0.2) 0.1 else r.2
        | none => r.2
    (r.1, confidence)

/-! ### Language detector (`src/backend/agents/language_detector.py`) -/

/-- Dict iteration order of `self.language_patterns` (lines 13-39). -/
def langList : List Language :=
  [.ENGLISH, .HINDI, .GUJARATI, .SPANISH, .FRENCH]

/-- `language_patterns[lang]['indicators']`. -/
def lang_indicators : Language → List String
  | .ENGLISH => ["the", "and", "is", "are", "was", "were", "have", "has", "had"]
  | .HINDI => ["है", "हैं", "था", "थे", "था", "कर", "के", "को", "से", "में"]
  | .GUJARATI => ["છે", "છો", "હતા", "હતો", "કર", "કે", "કો", "સે", "માં"]
  | .SPANISH => ["el", "la", "de", "que", "y", "a", "en", "un", "es", "se"]
  | .FRENCH => ["le", "la", "de", "que", "et", "à", "en", "un", "est", "se"]

/-- `language_patterns[lang]['script']`. -/
def lang_script : Language → String
  | .HINDI => "devanagari"
  | .GUJARATI => "gujarati"
  | _ => "latin"

/-- The Devanagari block test `'\u0900' <= char <= '\u097F'` (line 136). -/
def isDevanagariChar (c : Char) : Bool :=
  0x0900 ≤ c.toNat && c.toNat ≤ 0x097F

/-- The Gujarati block test `'\u0A80' <= char <= '\u0AFF'` (line 139). -/
def isGujaratiChar (c : Char) : Bool :=
  0x0A80 ≤ c.toNat && c.toNat ≤ 0x0AFF

/-- The ASCII test `ord(char) < 128` (line 142). -/
def isAsciiChar (c : Char) : Bool :=
  c.toNat < 128

/-- The per-language score of `detect_language` (lines 121-145): indicator
hits normalized by the indicator count, plus a script bonus (0.3 for a
Devanagari or Gujarati codepoint present, 0.2 for an all-ASCII text). -/
def langScore (text : String) (lang : Language) : ℚ :=
  let text_lower := pyLower text
  let score : ℚ := ((lang_indicators lang).filter (fun ind => substr ind text_lower)).length
  let total_indicators := (lang_indicators lang).length
  let score := if total_indicators > 0 then score / total_indicators else score
  if lang_script lang = "devanagari" then
    if text.toList.any isDevanagariChar then score + 0.3 else score
  else if lang_script lang = "gujarati" then
    if text.toList.any isGujaratiChar then score + 0.3 else score
  else if lang_script lang = "latin" then
    if text.toList.all isAsciiChar then score + 0.2 else score
  else score

/-- The `scores` dict of `detect_language`, in insertion order. -/
def lang_scores (text : String) : List (Language × ℚ) :=
  langList.map (fun l => (l, langScore text l))

/-- `best_lang = max(scores, key=scores.get)` (line 148). -/
def best_language (text : String) : Language :=
  argmaxFirst (lang_scores text) .ENGLISH

/-- `detect_language` (lines 111-161): empty text falls back to the hint (or
English) at confidence 0; otherwise the max-scoring language wins unless a
hint scores at least 80% of the maximum, in which case the hint and its own
score are returned. -/
def detect_language (text : String) (hint : Option Language) : Language × ℚ :=
  if pyIsBlank text then (hint.getD .ENGLISH, 0)
  else
    let scores := lang_scores text
    let best_lang := best_language text
    let confidence := assocGetD scores best_lang 0
    match hint with
    | some h =>
      if assocGetD scores h 0 ≥ confidence * 0.8 then (h, assocGetD scores h 0)
      else (best_lang, confidence)
    | none => (best_lang, confidence)

/-! ### Avatar coordinator (`src/backend/agents/avatar_coordinator.py`) -/

/-- One phoneme timestamp as produced by the TTS agent: the `phoneme`,
`start` and `end` keys of the timing dicts (`end_` stands for the reserved
word `end`). -/
structure Phoneme where
  phoneme : String
  start : ℚ
  end_ : ℚ
deriving DecidableEq

/-- One entry of `self.gesture_animations` (lines 43-79). -/
structure GestureConfig where
  animation : String
  duration : ℚ
  intensity : String
  body_parts : List String
  description : String
deriving DecidableEq

/-- `self.gesture_animations` (every `GestureTag` has an entry, so the
`.get(tag, animations[AFFIRMATIVE])` lookup is total). -/
def gesture_animations : GestureTag → GestureConfig
  | .AFFIRMATIVE => ⟨"nod", 1, "medium", ["head"], "Nodding head up and down"⟩
  | .CORRECTIVE => ⟨"shake_head", 1.2, "medium", ["head"], "Shaking head left and right"⟩
  | .ILLUSTRATIVE => ⟨"point", 2, "high", ["arm", "hand", "finger"], "Pointing gesture with arm extension"⟩
  | .QUESTIONING => ⟨"tilt_head", 1.5, "low", ["head"], "Tilting head to one side"⟩
  | .POINTING => ⟨"point_forward", 1.8, "medium", ["arm", "hand"], "Pointing forward with hand"⟩

/-- One event of the gesture timeline (lines 210-217). -/
structure GestureEvent where
  time : ℚ
  duration : ℚ
  type_ : String
  intensity : String
  body_parts : List String
  description : String
deriving DecidableEq

/-- The `emotion_intensity` dict (lines 197-203), `.get(emotion, 0.5)`
(total: every emotion has an entry). -/
def emotion_intensity : Emotion → ℚ
  | .CALM => 0.3
  | .NEUTRAL => 0.5
  | .ENCOURAGING => 0.7
  | .CORRECTIVE => 0.6
  | .EXCITED => 0.9

/-- `max([p.get('end', 0) for p in ps])` for non-empty `ps` (0 otherwise). -/
def maxEnd (ps : List Phoneme) : ℚ :=
  listMax (ps.map (fun p => p.end_))

/-- The `while current_time < total_duration` loop of
`_generate_gesture_timeline` (lines 208-219), written with explicit fuel
because a zero `gesture_interval` would make the Python loop diverge. -/
def gestureLoop (cfg : GestureConfig) (total_duration gesture_interval : ℚ) :
    ℕ → ℚ → List GestureEvent
  | 0, _ => []
  | fuel + 1, current_time =>
    if current_time < total_duration then
      ⟨current_time, cfg.duration, cfg.animation, cfg.intensity, cfg.body_parts,
        cfg.description⟩ ::
        gestureLoop cfg total_duration gesture_interval fuel (current_time + gesture_interval)
    else []

/-- `_generate_gesture_timeline` (lines 179-225): empty phoneme input returns
the empty timeline before any duration arithmetic happens; otherwise gestures
are emitted every `total_duration / (intensity * 3)` seconds. -/
def _generate_gesture_timeline (fuel : ℕ) (gesture_tag : GestureTag) (emotion : Emotion)
    (phoneme_timestamps : List Phoneme) : List GestureEvent :=
  if phoneme_timestamps.isEmpty then []
  else
    let gesture_config := gesture_animations gesture_tag
    let total_duration := maxEnd phoneme_timestamps
    let intensity := emotion_intensity emotion
    let gesture_interval := total_duration / (intensity * 3)
    gestureLoop gesture_config total_duration gesture_interval fuel 0

/-- One entry of `self.emotion_expressions` (lines 82-113). -/
structure EmotionConfig where
  facial_expression : String
  eye_expression : String
  mouth_shape : String
  eyebrow_position : String
deriving DecidableEq

/-- `self.emotion_expressions` (total, so `.get(emotion, NEUTRAL)` never
falls back). -/
def emotion_expressions : Emotion → EmotionConfig
  | .CALM => ⟨"neutral", "calm", "relaxed", "neutral"⟩
  | .ENCOURAGING => ⟨"smile", "bright", "smile", "raised"⟩
  | .CORRECTIVE => ⟨"concerned", "focused", "slight_frown", "furrowed"⟩
  | .EXCITED => ⟨"enthusiastic", "wide", "big_smile", "raised"⟩
  | .NEUTRAL => ⟨"neutral", "normal", "neutral", "neutral"⟩

/-- One event of the expression timeline (lines 246-253). -/
structure ExpressionEvent where
  time : ℚ
  duration : ℚ
  facial_expression : String
  eye_expression : String
  mouth_shape : String
  eyebrow_position : String
deriving DecidableEq

/-- `_generate_emotion_expressions` (lines 227-260): empty input returns the
empty timeline; otherwise a 2-second expression is placed at each in-range
key point (start, third, two-thirds, last index). -/
def _generate_emotion_expressions (emotion : Emotion) (phoneme_timestamps : List Phoneme) :
    List ExpressionEvent :=
  if phoneme_timestamps.isEmpty then []
  else
    let cfg := emotion_expressions emotion
    let n := phoneme_timestamps.length
    let key_points := [0, n / 3, 2 * n / 3, n - 1]
    key_points.filterMap (fun point =>
      if h : point < phoneme_timestamps.length then
        some ⟨(phoneme_timestamps.get ⟨point, h⟩).start, 2, cfg.facial_expression,
          cfg.eye_expression, cfg.mouth_shape, cfg.eyebrow_position⟩
      else none)

/-- One frame of the lip-sync timeline (lines 282-288). -/
structure LipSyncFrame where
  time : ℚ
  duration : ℚ
  phoneme : String
  mouth_shape : String
  intensity : ℚ
deriving DecidableEq

/-- The `vowel_shapes` dict of `_phoneme_to_mouth_shape` (lines 300-306). -/
def vowel_shapes : List (String × String) :=
  [("a", "open_wide"), ("e", "open_medium"), ("i", "smile"), ("o", "round"), ("u", "pucker")]

/-- The `consonant_shapes` dict (lines 308-320). -/
def consonant_shapes : List (String × String) :=
  [("b", "closed"), ("p", "closed"), ("m", "closed"), ("f", "teeth_on_lip"),
   ("v", "teeth_on_lip"), ("s", "narrow"), ("z", "narrow"), ("t", "tongue_tip"),
   ("d", "tongue_tip"), ("k", "back_tongue"), ("g", "back_tongue")]

/-- `_phoneme_to_mouth_shape` (lines 297-329): vowel table, then consonant
table, then `"neutral"`. -/
def _phoneme_to_mouth_shape (phoneme : String) : String :=
  let phoneme_lower := pyLower phoneme
  match (vowel_shapes.find? (fun p => decide (p.1 = phoneme_lower))).map (fun p => p.2) with
  | some shape => shape
  | none =>
    match (consonant_shapes.find? (fun p => decide (p.1 = phoneme_lower))).map (fun p => p.2) with
    | some shape => shape
    | none => "neutral"

/-- `_generate_lip_sync_data` (lines 262-295): no frames without the
`lip_sync` capability; otherwise one frame per phoneme with `time = start`,
`duration = end - start` and the mouth shape from the lookup tables. -/
def _generate_lip_sync_data (phoneme_timestamps : List Phoneme) (capabilities : List String) :
    List LipSyncFrame :=
  if "lip_sync" ∉ capabilities then []
  else
    phoneme_timestamps.map (fun pd =>
      ⟨pd.start, pd.end_ - pd.start, pd.phoneme, _phoneme_to_mouth_shape pd.phoneme, 0.8⟩)

/-! ### Orchestrator graph (`src/backend/agents/orchestrator.py`) -/

/-- The nodes registered in `_build_agent_graph` (lines 67-75). -/
inductive GNode
  | session_manager
  | stt_agent
  | language_detector
  | intent_router
  | teaching_agent
  | response_synthesizer
  | tts_agent
  | avatar_coordinator
  | error_handler
deriving DecidableEq

/-- The edges added in `_build_agent_graph` (lines 78-91): `none` as the
target stands for the library's terminal `END` marker. These are the only
edges; the graph declares no conditional routing. -/
def workflow_edges : List (GNode × Option GNode) :=
  [(.session_manager, some .stt_agent),
   (.stt_agent, some .language_detector),
   (.language_detector, some .intent_router),
   (.intent_router, some .teaching_agent),
   (.teaching_agent, some .response_synthesizer),
   (.response_synthesizer, some .tts_agent),
   (.tts_agent, some .avatar_coordinator),
   (.avatar_coordinator, none),
   (.error_handler, none)]

/-- `workflow.set_entry_point("session_manager")` (line 78). -/
def entry_point : GNode := .session_manager

/-- The unique outgoing edge of a node, if any. -/
def nextNode (n : GNode) : Option (Option GNode) :=
  (workflow_edges.find? (fun e => decide (e.1 = n))).map (fun e => e.2)

/-- The sequence of nodes the compiled graph executes from `n`: since every
registered edge is unconditional, the trace is independent of the request
state.  `fuel` bounds the walk (the graph is finite and acyclic, so any fuel
of at least the node count gives the full trace). -/
def executionTrace : ℕ → GNode → List GNode
  | 0, n => [n]
  | fuel + 1, n =>
    n ::
      (match nextNode n with
       | some (some m) => executionTrace fuel m
       | _ => [])

/-- The `final_response` dict assembled by the terminal nodes; only the keys
the error-handling claims inspect are modelled. -/
structure FinalResponse where
  text : String
  summary : Option String
  confidence : ℚ
deriving DecidableEq

/-- The mutable request state threaded through the graph (`AgentState`,
lines 43-61, plus the `confidence`/`timings` keys the STT node merges in). -/
structure AgentState where
  session_id : Option String
  audio_data : Option (List ℕ)
  transcript : Option String
  language : Option Language
  normalized_text : Option String
  intent : Option Intent
  subject : Option Subject
  priority : Option String
  confidence : Option ℚ
  timings : List (String × ℚ × ℚ)
  final_response : Option FinalResponse
  error : Option String

/-- The result of the external `stt_agent.transcribe_audio` collaborator. -/
structure STTResult where
  transcript : String
  language : Language
  confidence : ℚ
  timings : List (String × ℚ × ℚ)

/-- `_stt_agent_node` (lines 250-271): with no (or empty) audio bytes the
node merges `error = "No audio data provided"` into the state; otherwise it
merges the transcription result of the external collaborator `transcribe`. -/
def _stt_agent_node (transcribe : List ℕ → Option Language → STTResult)
    (state : AgentState) : AgentState :=
  match state.audio_data with
  | none => { state with error := some "No audio data provided" }
  | some bytes =>
    if bytes.isEmpty then { state with error := some "No audio data provided" }
    else
      let r := transcribe bytes state.language
      { state with
          transcript := some r.transcript
          language := some r.language
          confidence := some r.confidence
          timings := r.timings }

/-- The fixed apology text produced by `_error_handler_node` (line 468). -/
def apology : String :=
  "I apologize, but I encountered an error processing your request. Please try again."

/-- `_error_handler_node` (lines 461-479): the single producer of the
apology response, keeping the original error in the state. -/
def _error_handler_node (state : AgentState) : AgentState :=
  { state with
      final_response := some ⟨apology, some "Error occurred", 0⟩,
      error := some (state.error.getD "Unknown error occurred") }

/-- The initial state `process_text` submits to the graph (lines 137-141):
a transcript and session id but no audio bytes. -/
def processTextState (text session_id : String) (language : Language) : AgentState :=
  { session_id := some session_id, audio_data := none, transcript := some text,
    language := some language, normalized_text := none, intent := none, subject := none,
    priority := none, confidence := none, timings := [], final_response := none,
    error := none }

/-! ### Helper lemmas about the context window -/

/-- Folding `windowAppend` over a window that starts within capacity keeps
the session id and capacity and leaves exactly the last `max_size` of all
entries ever appended, in order. -/
theorem windowAppend_foldl (es : List MemoryEntry) :
    ∀ (sid : String) (E : List MemoryEntry) (m : ℕ), 0 < m → E.length ≤ m →
      es.foldl windowAppend ⟨sid, E, m⟩ =
        ⟨sid, (E ++ es).drop ((E ++ es).length - m), m⟩ := by
  induction es with
  | nil =>
    intro sid E m hm hlen
    simp only [List.foldl_nil, List.append_nil]
    have h0 : E.length - m = 0 := by omega
    rw [h0, List.drop_zero]
  | cons e rest ih =>
    intro sid E m hm hlen
    rw [List.foldl_cons]
    by_cases hover : (E ++ [e]).length > m
    · have happ : windowAppend ⟨sid, E, m⟩ e =
          ⟨sid, (E ++ [e]).drop ((E ++ [e]).length - m), m⟩ := by
        rw [windowAppend]
        dsimp only
        rw [if_pos hover, pySliceLast, if_neg (by omega : ¬ m = 0)]
      rw [happ]
      have hdlen : ((E ++ [e]).drop ((E ++ [e]).length - m)).length = m := by
        rw [List.length_drop]
        simp only [List.length_append, List.length_cons, List.length_nil] at hover ⊢
        omega
      rw [ih sid _ m hm (by omega)]
      have houter : (((E ++ [e]).drop ((E ++ [e]).length - m)) ++ rest).length - m
          = rest.length := by
        rw [List.length_append, hdlen]; omega
      rw [houter,
        ← List.drop_append_of_le_length (by omega : (E ++ [e]).length - m ≤ (E ++ [e]).length),
        List.drop_drop]
      have hlist : (E ++ [e]) ++ rest = E ++ e :: rest := by simp
      rw [hlist]
      have hidx : (E ++ [e]).length - m + rest.length = (E ++ e :: rest).length - m := by
        simp only [List.length_append, List.length_cons, List.length_nil] at hover ⊢
        omega
      rw [hidx]
    · have happ : windowAppend ⟨sid, E, m⟩ e = ⟨sid, E ++ [e], m⟩ := by
        rw [windowAppend]
        dsimp only
        rw [if_neg hover]
      have hlen2 : (E ++ [e]).length ≤ m := by omega
      rw [happ, ih sid (E ++ [e]) m hm hlen2]
      have hlist : (E ++ [e]) ++ rest = E ++ e :: rest := by simp
      rw [hlist]

/-- `addAll` changes the window of a session exactly by folding the entries
of that session's calls into it (calls on other sessions, and calls on
sessions with no window, do not touch it). -/
theorem addAll_proj (calls : List (String × MemoryEntry)) :
    ∀ (mgr : SessionManager) (sid : String),
      (addAll mgr calls).context_windows sid =
        Option.map
          (fun w => ((calls.filter (fun c => decide (c.1 = sid))).map Prod.snd).foldl
            windowAppend w)
          (mgr.context_windows sid) := by
  induction calls with
  | nil =>
    intro mgr sid
    cases hw : mgr.context_windows sid <;> simp [addAll, hw]
  | cons c rest ih =>
    intro mgr sid
    have hstep : addAll mgr (c :: rest) = addAll (add_to_context mgr c.1 c.2).1 rest := by
      rw [addAll, addAll, List.foldl_cons]
    rw [hstep, ih]
    cases hw : mgr.context_windows c.1 with
    | none =>
      have hmgr : (add_to_context mgr c.1 c.2).1 = mgr := by rw [add_to_context, hw]
      rw [hmgr]
      by_cases hc : c.1 = sid
      · subst hc
        rw [hw]
        simp
      · rw [List.filter_cons]
        simp [hc]
    | some w =>
      have hcw : (add_to_context mgr c.1 c.2).1.context_windows =
          fun k => if k = c.1 then some (windowAppend w c.2) else mgr.context_windows k := by
        rw [add_to_context, hw]
      rw [hcw]
      by_cases hc : c.1 = sid
      · subst hc
        rw [hw]
        simp [List.filter_cons]
      · have hne : ¬ (sid = c.1) := fun h => hc h.symm
        rw [List.filter_cons]
        simp [hc, hne]

/-- C2: for every session whose context window starts empty with positive
capacity `m` (10 by default), any sequence of `add_to_context` calls leaves
exactly the last `m` of that session's appended entries, in insertion order,
and hence never more than `m` entries. -/
theorem context_window_bounded_recent
    (mgr : SessionManager) (sid : String) (m : ℕ) (calls : List (String × MemoryEntry))
    (hm : 0 < m)
    (hw : mgr.context_windows sid = some ⟨sid, [], m⟩) :
    (addAll mgr calls).context_windows sid =
      some ⟨sid,
        ((calls.filter (fun c => decide (c.1 = sid))).map Prod.snd).drop
          (((calls.filter (fun c => decide (c.1 = sid))).map Prod.snd).length - m), m⟩ ∧
    (((calls.filter (fun c => decide (c.1 = sid))).map Prod.snd).drop
      (((calls.filter (fun c => decide (c.1 = sid))).map Prod.snd).length - m)).length ≤ m := by
  constructor
  · rw [addAll_proj calls mgr sid, hw]
    simp only [Option.map]
    rw [windowAppend_foldl _ sid [] m hm (by simp)]
    simp
  · rw [List.length_drop]; omega

/-- The calls of the C2 witness: eleven entries for session `sess`, one for
an absent session, one more for `sess`. -/
def c2WitnessCalls : List (String × MemoryEntry) :=
  ((List.range 11).map (fun i => ("sess", ⟨(i : ℤ), "question", "q", []⟩))) ++
    [("other", ⟨99, "answer", "a", []⟩), ("sess", ⟨11, "answer", "a", []⟩)]

/-- The entries of the C2 witness addressed to session `sess`. -/
def c2WitnessMine : List MemoryEntry :=
  (c2WitnessCalls.filter (fun c => decide (c.1 = "sess"))).map Prod.snd

/-- C2 witness: a concrete manager with one ten-slot session receiving
twelve entries (one extra call addressed to an absent session is ignored). -/
theorem context_window_bounded_recent_witness :
    (addAll
        ⟨[], fun k => if k = "sess" then some ⟨"sess", [], 10⟩ else none, fun _ => none⟩
        c2WitnessCalls).context_windows "sess" =
      some ⟨"sess", c2WitnessMine.drop (c2WitnessMine.length - 10), 10⟩ :=
  (context_window_bounded_recent _ "sess" 10 c2WitnessCalls (by norm_num) rfl).1

/-! ### Helper lemma about the rate limiter -/

/-- Running calls that all fall strictly inside the current window admits
exactly `min (number of calls) (remaining budget)` of them and never moves
the window. -/
theorem runRate_within (M : ℕ) (ts : List ℤ) :
    ∀ rl : RateLimit, rl.max_requests = M → (∀ t ∈ ts, t < rl.reset_time) →
      (runRate rl ts).2 = min ts.length (M - rl.requests) ∧
      (runRate rl ts).1.reset_time = rl.reset_time ∧
      (runRate rl ts).1.max_requests = M := by
  induction ts with
  | nil => intro rl hM _; simp [runRate, hM]
  | cons t rest ih =>
    rintro ⟨req, rt, MM⟩ hM hts
    dsimp only at hM
    subst hM
    have hlt : t < rt := hts t (by simp)
    have hreset : resetIfPassed ⟨req, rt, MM⟩ t = ⟨req, rt, MM⟩ := by
      rw [resetIfPassed]
      rw [if_neg (by dsimp only; omega)]
    by_cases hfull : req ≥ MM
    · have hcheck : check_rate_limit_rl ⟨req, rt, MM⟩ t = (⟨req, rt, MM⟩, false) := by
        rw [check_rate_limit_rl, hreset]
        dsimp only
        rw [if_pos hfull]
      have hrec := ih ⟨req, rt, MM⟩ rfl (fun u hu => hts u (by simp [hu]))
      simp only [runRate, hcheck]
      dsimp only at hrec ⊢
      refine ⟨?_, hrec.2.1, hrec.2.2⟩
      rw [hrec.1]
      simp only [Bool.false_eq_true, if_false, List.length_cons]
      omega
    · have hcheck : check_rate_limit_rl ⟨req, rt, MM⟩ t = (⟨req + 1, rt, MM⟩, true) := by
        rw [check_rate_limit_rl, hreset]
        dsimp only
        rw [if_neg hfull]
      have hrec := ih ⟨req + 1, rt, MM⟩ rfl (fun u hu => hts u (by simp [hu]))
      simp only [runRate, hcheck]
      dsimp only at hrec ⊢
      refine ⟨?_, hrec.2.1, hrec.2.2⟩
      rw [hrec.1]
      simp only [if_pos, List.length_cons]
      omega

/-- C3: with the 60-per-window limiter, a call at or past the reset
timestamp zeroes the counter and moves the reset timestamp to one window
(60s) after the call; the call itself is admitted (counter becomes 1), the
following calls inside the fresh window are admitted up to a total of 60 and
never more, and 59 or more further calls exhaust exactly the fresh budget of
60.  In general a call is admitted only while the (post-reset) counter is
below `max_requests`, and admission increments the counter. -/
theorem rate_limit_window_budget
    (req : ℕ) (rt : ℤ) (now : ℤ) (ts : List ℤ) (rl2 : RateLimit) (t2 : ℤ)
    (hnow : now ≥ rt)
    (hts : ∀ t ∈ ts, t < now + 60) :
    (resetIfPassed ⟨req, rt, 60⟩ now).requests = 0 ∧
    (resetIfPassed ⟨req, rt, 60⟩ now).reset_time = now + 60 ∧
    (check_rate_limit_rl ⟨req, rt, 60⟩ now).2 = true ∧
    (check_rate_limit_rl ⟨req, rt, 60⟩ now).1.requests = 1 ∧
    (check_rate_limit_rl ⟨req, rt, 60⟩ now).1.reset_time = now + 60 ∧
    (runRate (check_rate_limit_rl ⟨req, rt, 60⟩ now).1 ts).2 = min ts.length 59 ∧
    1 + (runRate (check_rate_limit_rl ⟨req, rt, 60⟩ now).1 ts).2 ≤ 60 ∧
    (59 ≤ ts.length → 1 + (runRate (check_rate_limit_rl ⟨req, rt, 60⟩ now).1 ts).2 = 60) ∧
    ((check_rate_limit_rl rl2 t2).2 = true →
      (resetIfPassed rl2 t2).requests < rl2.max_requests ∧
      (check_rate_limit_rl rl2 t2).1.requests = (resetIfPassed rl2 t2).requests + 1) := by
  have hreset : resetIfPassed ⟨req, rt, 60⟩ now = ⟨0, now + 60, 60⟩ := by
    rw [resetIfPassed]
    rw [if_pos (by dsimp only; omega)]
  have hcheck : check_rate_limit_rl ⟨req, rt, 60⟩ now = (⟨1, now + 60, 60⟩, true) := by
    rw [check_rate_limit_rl, hreset]
    dsimp only
    rw [if_neg (by omega)]
  have hrun := runRate_within 60 ts ⟨1, now + 60, 60⟩ rfl
    (by intro t ht; dsimp only; exact hts t ht)
  dsimp only at hrun
  refine ⟨by rw [hreset], by rw [hreset], by rw [hcheck], by rw [hcheck], by rw [hcheck],
    ?_, ?_, ?_, ?_⟩
  · rw [hcheck, hrun.1]
  · rw [hcheck, hrun.1]; omega
  · intro hlen; rw [hcheck, hrun.1]; omega
  · intro hadm
    rcases rl2 with ⟨req2, rt2, M2⟩
    rw [check_rate_limit_rl] at hadm ⊢
    dsimp only at hadm ⊢
    by_cases hfull : (resetIfPassed ⟨req2, rt2, M2⟩ t2).requests
        ≥ (resetIfPassed ⟨req2, rt2, M2⟩ t2).max_requests
    · rw [if_pos hfull] at hadm
      exact absurd hadm (by simp)
    · rw [if_neg hfull] at hadm ⊢
      have hmax : (resetIfPassed ⟨req2, rt2, M2⟩ t2).max_requests = M2 := by
        rw [resetIfPassed]; split <;> rfl
      rw [hmax] at hfull
      exact ⟨by omega, rfl⟩

/-- C3 witness: a session mid-window at count 7 whose window expired at time
100; at time 100 the counter resets and three in-window follow-up calls are
all admitted. -/
theorem rate_limit_window_budget_witness :
    (resetIfPassed ⟨7, 100, 60⟩ 100).requests = 0 ∧
    (resetIfPassed ⟨7, 100, 60⟩ 100).reset_time = 100 + 60 ∧
    (check_rate_limit_rl ⟨7, 100, 60⟩ 100).2 = true ∧
    (check_rate_limit_rl ⟨7, 100, 60⟩ 100).1.requests = 1 ∧
    (check_rate_limit_rl ⟨7, 100, 60⟩ 100).1.reset_time = 100 + 60 ∧
    (runRate (check_rate_limit_rl ⟨7, 100, 60⟩ 100).1 [101, 102, 103]).2 =
      min ([101, 102, 103] : List ℤ).length 59 ∧
    1 + (runRate (check_rate_limit_rl ⟨7, 100, 60⟩ 100).1 [101, 102, 103]).2 ≤ 60 ∧
    (59 ≤ ([101, 102, 103] : List ℤ).length →
      1 + (runRate (check_rate_limit_rl ⟨7, 100, 60⟩ 100).1 [101, 102, 103]).2 = 60) ∧
    ((check_rate_limit_rl ⟨0, 50, 60⟩ 10).2 = true →
      (resetIfPassed ⟨0, 50, 60⟩ 10).requests < (⟨0, 50, 60⟩ : RateLimit).max_requests ∧
      (check_rate_limit_rl ⟨0, 50, 60⟩ 10).1.requests =
        (resetIfPassed ⟨0, 50, 60⟩ 10).requests + 1) :=
  rate_limit_window_budget 7 100 100 [101, 102, 103] ⟨0, 50, 60⟩ 10
    (by decide) (by decide)

/-- C10: `check_rate_limit` on a session id absent from the rate-limit map
returns `true` and leaves the manager untouched. -/
theorem unknown_session_never_throttled
    (mgr : SessionManager) (sid : String) (now : ℤ)
    (h : mgr.rate_limits sid = none) :
    check_rate_limit mgr sid now = (mgr, true) := by
  rw [check_rate_limit, h]

/-- C10 witness: the empty manager admits an unknown session. -/
theorem unknown_session_never_throttled_witness :
    check_rate_limit ⟨[], fun _ => none, fun _ => none⟩ "nobody" 0 =
      (⟨[], fun _ => none, fun _ => none⟩, true) :=
  unknown_session_never_throttled _ "nobody" 0 rfl

/-- C6 counterexample: a store whose single session has a non-future
last-activity timestamp (equal to the sweep time) is NOT emptied by a sweep
with `max_age_hours = 0`: the strict `<` comparison keeps the session and
returns count 0 instead of 1. -/
theorem sweep_zero_age_counterexample :
    ((⟨[("s", ⟨"u", 0, 0⟩)], fun _ => none, fun _ => none⟩ : SessionManager).sessions.all
      (fun p => decide (p.2.last_activity ≤ 0))) = true ∧
    (cleanup_old_sessions ⟨[("s", ⟨"u", 0, 0⟩)], fun _ => none, fun _ => none⟩ 0 0).2 = 0 ∧
    (cleanup_old_sessions ⟨[("s", ⟨"u", 0, 0⟩)], fun _ => none, fun _ => none⟩ 0 0).1.sessions
      = [("s", ⟨"u", 0, 0⟩)] := by
  refine ⟨by decide, ?_, ?_⟩ <;> rfl

/-- C6 (amended): a sweep with `max_age_hours = 0` removes every session
whose last-activity is strictly before the sweep time, so a store all of
whose sessions are strictly past empties completely with the removed count
equal to the prior size. -/
theorem sweep_zero_age_removes_strictly_past
    (mgr : SessionManager) (now : ℤ)
    (h : ∀ p ∈ mgr.sessions, p.2.last_activity < now) :
    (cleanup_old_sessions mgr now 0).1.sessions = [] ∧
    (cleanup_old_sessions mgr now 0).2 = mgr.sessions.length := by
  have hfilter : mgr.sessions.filter
      (fun p => decide (p.2.last_activity < now - 0 * 3600)) = mgr.sessions := by
    rw [List.filter_eq_self]
    intro p hp
    have := h p hp
    simp only [decide_eq_true_eq]
    omega
  constructor
  · rw [cleanup_old_sessions]
    simp only [hfilter]
    rw [List.filter_eq_nil_iff]
    intro p hp
    simp only [decide_not, Bool.not_eq_true', decide_eq_false_iff_not, Decidable.not_not]
    exact List.mem_map_of_mem _ hp
  · rw [cleanup_old_sessions]
    simp only [hfilter, List.length_map]

/-- C6 witness: two strictly-past sessions are both removed and counted. -/
theorem sweep_zero_age_removes_strictly_past_witness :
    (cleanup_old_sessions
        ⟨[("a", ⟨"u1", -10, -3⟩), ("b", ⟨"u2", -9, -1⟩)], fun _ => none, fun _ => none⟩
        0 0).1.sessions = [] ∧
    (cleanup_old_sessions
        ⟨[("a", ⟨"u1", -10, -3⟩), ("b", ⟨"u2", -9, -1⟩)], fun _ => none, fun _ => none⟩
        0 0).2 =
      (⟨[("a", ⟨"u1", -10, -3⟩), ("b", ⟨"u2", -9, -1⟩)], fun _ => none,
        fun _ => none⟩ : SessionManager).sessions.length :=
  sweep_zero_age_removes_strictly_past _ 0 (by decide)

/-! ### Timeline synthesis claims -/

/-- C4: on an empty phoneme-timestamp sequence all three timeline generators
return the empty timeline, for every gesture tag, emotion, capability list
and loop fuel (in particular no division is reached and no event is made). -/
theorem empty_phonemes_empty_timelines
    (fuel : ℕ) (g : GestureTag) (e : Emotion) (caps : List String) :
    _generate_gesture_timeline fuel g e [] = [] ∧
    _generate_emotion_expressions e [] = [] ∧
    _generate_lip_sync_data [] caps = [] := by
  refine ⟨rfl, rfl, ?_⟩
  rw [_generate_lip_sync_data]
  split <;> rfl

/-- Mapping a function over a list relates the image elementwise to the
original list. -/
theorem forall2_map_self {α β : Type} (f : α → β) (R : β → α → Prop)
    (h : ∀ a, R (f a) a) : ∀ l : List α, List.Forall₂ R (l.map f) l := by
  intro l
  induction l with
  | nil => simp
  | cons a rest ih => exact List.Forall₂.cons (h a) ih

/-- C5: for a ten-phoneme input ordered by start time, beginning at 0 and
ending at 5, the lip-sync timeline (with the `lip_sync` capability granted,
as every avatar template does) has exactly ten frames, one per phoneme in
order — each with `time` the phoneme's start, `duration` its end minus
start, and the mouth shape from the lookup table — with non-decreasing start
times, and the last frame ends (time plus duration) at 5. -/
theorem lip_sync_ten_frames
    (ps : List Phoneme) (caps : List String)
    (hcap : "lip_sync" ∈ caps)
    (hlen : ps.length = 10)
    (hsorted : List.Chain' (fun a b => a.start ≤ b.start) ps)
    (hfirst : ps.head?.map Phoneme.start = some 0)
    (hlast : ps.getLast?.map Phoneme.end_ = some 5) :
    (_generate_lip_sync_data ps caps).length = 10 ∧
    List.Chain' (fun a b => a.time ≤ b.time) (_generate_lip_sync_data ps caps) ∧
    List.Forall₂
      (fun fr pd => fr.time = pd.start ∧ fr.duration = pd.end_ - pd.start ∧
        fr.phoneme = pd.phoneme ∧ fr.mouth_shape = _phoneme_to_mouth_shape pd.phoneme)
      (_generate_lip_sync_data ps caps) ps ∧
    (_generate_lip_sync_data ps caps).getLast?.map (fun fr => fr.time + fr.duration)
      = some 5 := by
  have hdef : _generate_lip_sync_data ps caps =
      ps.map (fun pd =>
        ⟨pd.start, pd.end_ - pd.start, pd.phoneme, _phoneme_to_mouth_shape pd.phoneme, 0.8⟩) := by
    rw [_generate_lip_sync_data, if_neg (by simp [hcap])]
  refine ⟨?_, ?_, ?_, ?_⟩
  · rw [hdef, List.length_map, hlen]
  · rw [hdef]
    exact (List.chain'_map _).mpr hsorted
  · rw [hdef]
    exact forall2_map_self _ _ (fun pd => ⟨rfl, rfl, rfl, rfl⟩) ps
  · cases hgl : ps.getLast? with
    | none => rw [hgl] at hlast; exact absurd hlast (by simp)
    | some pd =>
      rw [hgl] at hlast
      simp only [Option.map_some', Option.some.injEq] at hlast
      rw [hdef, List.getLast?_map, hgl]
      simp only [Option.map_some', Option.some.injEq]
      have : pd.start + (pd.end_ - pd.start) = pd.end_ := by ring
      rw [this, hlast]

/-- The ten phonemes of the C5 witness, covering 0.0 through 5.0 seconds. -/
def c5Phonemes : List Phoneme :=
  [⟨"a", 0, 0⟩, ⟨"b", 0, 1⟩, ⟨"e", 1, 1⟩, ⟨"x", 1, 2⟩, ⟨"o", 2, 2⟩,
   ⟨"m", 2, 3⟩, ⟨"s", 3, 3⟩, ⟨"t", 3, 4⟩, ⟨"k", 4, 4⟩, ⟨"u", 4, 5⟩]

/-- C5 witness: a concrete ten-phoneme sequence under the `teacher_1`
template capabilities. -/
theorem lip_sync_ten_frames_witness :
    (_generate_lip_sync_data c5Phonemes
      ["gestures", "expressions", "lip_sync", "eye_movement"]).length = 10 ∧
    List.Chain' (fun a b => a.time ≤ b.time)
      (_generate_lip_sync_data c5Phonemes
        ["gestures", "expressions", "lip_sync", "eye_movement"]) ∧
    List.Forall₂
      (fun fr pd => fr.time = pd.start ∧ fr.duration = pd.end_ - pd.start ∧
        fr.phoneme = pd.phoneme ∧ fr.mouth_shape = _phoneme_to_mouth_shape pd.phoneme)
      (_generate_lip_sync_data c5Phonemes
        ["gestures", "expressions", "lip_sync", "eye_movement"]) c5Phonemes ∧
    (_generate_lip_sync_data c5Phonemes
      ["gestures", "expressions", "lip_sync", "eye_movement"]).getLast?.map
        (fun fr => fr.time + fr.duration) = some 5 :=
  lip_sync_ten_frames c5Phonemes _ (by simp) rfl
    (by norm_num [c5Phonemes, List.chain'_cons]) rfl rfl

/-! ### Orchestrator error-routing claim -/

/-- C1 (code bug): the compiled workflow's execution order is fixed by its
static edges alone.  From the entry point the graph runs all eight pipeline
stages and never reaches `error_handler` (no edge leads into it), even
though a stage sets the `error` field — as the STT stage does on every
text-path state, whose audio bytes are absent — and even though
`_error_handler_node` is the producer of the apology response. -/
theorem error_handler_unreachable
    (transcribe : List ℕ → Option Language → STTResult) (s : AgentState)
    (herr : s.audio_data = none) :
    executionTrace 20 entry_point =
      [GNode.session_manager, GNode.stt_agent, GNode.language_detector, GNode.intent_router,
        GNode.teaching_agent, GNode.response_synthesizer, GNode.tts_agent,
        GNode.avatar_coordinator] ∧
    GNode.error_handler ∉ executionTrace 20 entry_point ∧
    (_stt_agent_node transcribe s).error = some "No audio data provided" ∧
    ((_error_handler_node s).final_response).map FinalResponse.text = some apology := by
  refine ⟨by decide, by decide, ?_, rfl⟩
  rw [_stt_agent_node, herr]

/-- C1 witness: the initial state of a `process_text` run (transcript
present, no audio): the STT stage sets the error, yet the trace still visits
every downstream stage and never the error handler. -/
theorem error_handler_unreachable_witness :
    executionTrace 20 entry_point =
      [GNode.session_manager, GNode.stt_agent, GNode.language_detector, GNode.intent_router,
        GNode.teaching_agent, GNode.response_synthesizer, GNode.tts_agent,
        GNode.avatar_coordinator] ∧
    GNode.error_handler ∉ executionTrace 20 entry_point ∧
    (_stt_agent_node (fun _ _ => ⟨"", Language.ENGLISH, 0, []⟩)
      (processTextState "hi" "sess" Language.ENGLISH)).error = some "No audio data provided" ∧
    ((_error_handler_node (processTextState "hi" "sess" Language.ENGLISH)).final_response).map
      FinalResponse.text = some apology :=
  error_handler_unreachable _ _ rfl

/-! ### Classifier claims -/

/-- Evaluation form of `intentScore`: 0.3 per keyword hit plus 0.5 per
pattern hit, times the priority weight. -/
theorem intentScore_eval (tl : String) (i : Intent) (kw pm : ℕ)
    (hk : ((intent_keywords i).filter (fun k => substr k tl)).length = kw)
    (hp : ((intent_patterns i).filter (fun p => re_search p tl)).length = pm) :
    intentScore tl i =
      ((if kw > 0 then (kw : ℚ) * 0.3 else 0) + (if pm > 0 then (pm : ℚ) * 0.5 else 0)) *
        assocGetD priority_weights (intent_priority i) 1 := by
  rw [intentScore, hk, hp]
  by_cases h1 : kw > 0 <;> by_cases h2 : pm > 0 <;> simp [h1, h2]

/-- Evaluation form of `subjectScore`: 0.4 per keyword hit plus 0.6 per
pattern hit. -/
theorem subjectScore_eval (tl : String) (s : Subject) (kw pm : ℕ)
    (hk : ((subject_keywords s).filter (fun k => substr k tl)).length = kw)
    (hp : ((subject_patterns s).filter (fun p => re_search p tl)).length = pm) :
    subjectScore tl s =
      (if kw > 0 then (kw : ℚ) * 0.4 else 0) + (if pm > 0 then (pm : ℚ) * 0.6 else 0) := by
  rw [subjectScore, hk, hp]
  by_cases h1 : kw > 0 <;> by_cases h2 : pm > 0 <;> simp [h1, h2]

/-- C9: on `"What is the quadratic formula?"` the subject classifier picks
MATH (pattern `quadratic`, score 0.6, confidence 0.3 > 0) and the intent
classifier picks ASK (keyword `what` and pattern `what is`, confidence
0.8). -/
theorem quadratic_formula_classification :
    classify_subject "What is the quadratic formula?" [] = (Subject.MATH, 3/10) ∧
    (0 : ℚ) < 3/10 ∧
    classify_intent "What is the quadratic formula?" [] = (Intent.ASK, 4/5, "normal") := by
  have hM : subjectScore (pyLower "What is the quadratic formula?") Subject.MATH = 3/5 := by
    rw [subjectScore_eval _ _ 0 1 (by decide) (by decide)]; norm_num
  have hS : subjectScore (pyLower "What is the quadratic formula?") Subject.SCIENCE = 0 := by
    rw [subjectScore_eval _ _ 0 0 (by decide) (by decide)]; norm_num
  have hP : subjectScore (pyLower "What is the quadratic formula?") Subject.PROGRAMMING = 0 := by
    rw [subjectScore_eval _ _ 0 0 (by decide) (by decide)]; norm_num
  have hH : subjectScore (pyLower "What is the quadratic formula?") Subject.HISTORY = 0 := by
    rw [subjectScore_eval _ _ 0 0 (by decide) (by decide)]; norm_num
  have hL : subjectScore (pyLower "What is the quadratic formula?") Subject.LITERATURE = 0 := by
    rw [subjectScore_eval _ _ 0 0 (by decide) (by decide)]; norm_num
  have hiA : intentScore (pyLower "What is the quadratic formula?") Intent.ASK = 8/5 := by
    rw [intentScore_eval _ _ 1 1 (by decide) (by decide)]
    simp +decide only [intent_priority, priority_weights, assocGetD]
    norm_num
  have hiC : intentScore (pyLower "What is the quadratic formula?") Intent.CHECK_HOMEWORK
      = 0 := by
    rw [intentScore_eval _ _ 0 0 (by decide) (by decide)]; norm_num
  have hiQ : intentScore (pyLower "What is the quadratic formula?") Intent.START_QUIZ = 0 := by
    rw [intentScore_eval _ _ 0 0 (by decide) (by decide)]; norm_num
  have hiS : intentScore (pyLower "What is the quadratic formula?") Intent.SMALL_TALK = 0 := by
    rw [intentScore_eval _ _ 0 0 (by decide) (by decide)]; norm_num
  have hiE : intentScore (pyLower "What is the quadratic formula?") Intent.ESCALATE = 0 := by
    rw [intentScore_eval _ _ 0 0 (by decide) (by decide)]; norm_num
  refine ⟨?_, by norm_num, ?_⟩
  · rw [classify_subject]
    rw [if_neg (by decide)]
    simp only [subjectList, List.map, hM, hS, hP, hH, hL]
    simp +decide only [listMax, argmaxFirst, assocGetD, List.foldl, List.map,
      _analyze_context_for_subject, List.isEmpty_nil]
    norm_num
  · rw [classify_intent]
    rw [if_neg (by decide)]
    simp only [intentList, List.map, hiA, hiC, hiQ, hiS, hiE]
    simp +decide only [listMax, argmaxFirst, assocGetD, List.foldl, List.map,
      _analyze_context_for_intent, List.isEmpty_nil, intent_priority]
    norm_num

/-- C7 counterexample: on the empty input text every intent and subject
score is zero, yet the classifiers return confidence 0.0 (the blank-input
early return), not the fixed 0.1 the claim promises for all-zero scores. -/
theorem blank_text_zero_confidence_counterexample :
    intentScore (pyLower "") Intent.ASK = 0 ∧
    intentScore (pyLower "") Intent.CHECK_HOMEWORK = 0 ∧
    intentScore (pyLower "") Intent.START_QUIZ = 0 ∧
    intentScore (pyLower "") Intent.SMALL_TALK = 0 ∧
    intentScore (pyLower "") Intent.ESCALATE = 0 ∧
    subjectScore (pyLower "") Subject.MATH = 0 ∧
    subjectScore (pyLower "") Subject.SCIENCE = 0 ∧
    subjectScore (pyLower "") Subject.PROGRAMMING = 0 ∧
    subjectScore (pyLower "") Subject.HISTORY = 0 ∧
    subjectScore (pyLower "") Subject.LITERATURE = 0 ∧
    classify_intent "" [] = (Intent.ASK, 0, "normal") ∧
    classify_subject "" [] = (Subject.GENERAL, 0) ∧
    (0 : ℚ) ≠ 0.1 := by
  refine ⟨?_, ?_, ?_, ?_, ?_, ?_, ?_, ?_, ?_, ?_, ?_, ?_, by norm_num⟩
  · rw [intentScore_eval _ _ 0 0 (by decide) (by decide)]; norm_num
  · rw [intentScore_eval _ _ 0 0 (by decide) (by decide)]; norm_num
  · rw [intentScore_eval _ _ 0 0 (by decide) (by decide)]; norm_num
  · rw [intentScore_eval _ _ 0 0 (by decide) (by decide)]; norm_num
  · rw [intentScore_eval _ _ 0 0 (by decide) (by decide)]; norm_num
  · rw [subjectScore_eval _ _ 0 0 (by decide) (by decide)]; norm_num
  · rw [subjectScore_eval _ _ 0 0 (by decide) (by decide)]; norm_num
  · rw [subjectScore_eval _ _ 0 0 (by decide) (by decide)]; norm_num
  · rw [subjectScore_eval _ _ 0 0 (by decide) (by decide)]; norm_num
  · rw [subjectScore_eval _ _ 0 0 (by decide) (by decide)]; norm_num
  · rw [classify_intent, if_pos (by decide)]
  · rw [classify_subject, if_pos (by decide)]

/-- C7 (amended): on every non-blank text all of whose category scores are
zero, the intent classifier falls back to (ASK, 0.1, normal) and the subject
classifier to (GENERAL, 0.1), whatever the context (the context penalty
floors at 0.1). -/
theorem all_zero_scores_default_fallback
    (text : String) (ctx : List CtxEntry)
    (hb : pyIsBlank text = false)
    (hzi : ∀ i ∈ intentList, intentScore (pyLower text) i = 0)
    (hzs : ∀ s ∈ subjectList, subjectScore (pyLower text) s = 0) :
    classify_intent text ctx = (Intent.ASK, 0.1, "normal") ∧
    classify_subject text ctx = (Subject.GENERAL, 0.1) := by
  have hmaxq : max ((0.1 : ℚ) - 0.2) 0.1 = 0.1 := by
    rw [max_eq_right (by norm_num)]
  constructor
  · rw [classify_intent, hb]
    simp only [Bool.false_eq_true, if_false, intentList, List.map]
    rw [hzi Intent.ASK (by simp [intentList]),
      hzi Intent.CHECK_HOMEWORK (by simp [intentList]),
      hzi Intent.START_QUIZ (by simp [intentList]),
      hzi Intent.SMALL_TALK (by simp [intentList]),
      hzi Intent.ESCALATE (by simp [intentList])]
    have hmax : listMax [(0:ℚ), 0, 0, 0, 0] = 0 := by
      norm_num [listMax]
    rw [if_pos hmax]
    dsimp only
    by_cases hc : ctx.isEmpty = true
    · rw [if_pos hc]
    · rw [if_neg hc]
      cases ha : _analyze_context_for_intent ctx with
      | none => rfl
      | some hint =>
        dsimp only
        by_cases hh : hint = Intent.ASK
        · subst hh; simp
        · rw [if_pos hh, hmaxq]
  · rw [classify_subject, hb]
    simp only [Bool.false_eq_true, if_false, subjectList, List.map]
    rw [hzs Subject.MATH (by simp [subjectList]),
      hzs Subject.SCIENCE (by simp [subjectList]),
      hzs Subject.PROGRAMMING (by simp [subjectList]),
      hzs Subject.HISTORY (by simp [subjectList]),
      hzs Subject.LITERATURE (by simp [subjectList])]
    have hmax : listMax [(0:ℚ), 0, 0, 0, 0] = 0 := by
      norm_num [listMax]
    rw [if_pos hmax]
    dsimp only
    by_cases hc : ctx.isEmpty = true
    · rw [if_pos hc]
    · rw [if_neg hc]
      cases ha : _analyze_context_for_subject ctx with
      | none => rfl
      | some hint =>
        dsimp only
        by_cases hh : hint = Subject.GENERAL
        · subst hh; simp
        · rw [if_pos hh, hmaxq]

/-- C7 witness: a non-blank text matching no keyword or pattern, with a
non-empty context, falls back to the defaults at confidence 0.1. -/
theorem all_zero_scores_default_fallback_witness :
    classify_intent "zzz qqq" [⟨"intent", "homework"⟩] = (Intent.ASK, 0.1, "normal") ∧
    classify_subject "zzz qqq" [⟨"intent", "homework"⟩] = (Subject.GENERAL, 0.1) :=
  all_zero_scores_default_fallback "zzz qqq" [⟨"intent", "homework"⟩] (by decide)
    (by
      intro i hi
      fin_cases hi <;> (rw [intentScore_eval _ _ 0 0 (by decide) (by decide)]; norm_num))
    (by
      intro s hs
      fin_cases hs <;> (rw [subjectScore_eval _ _ 0 0 (by decide) (by decide)]; norm_num))

/-- C8 counterexample: the whitespace-only text `" "` is non-empty and the
SPANISH hint's own score (1/5, the all-ASCII bonus) is at least 80% of the
best language's score (ENGLISH, also 1/5), yet `detect_language` takes the
blank-input early return and reports confidence 0.0, not the hint's own
score — so the claim fails as stated over all non-empty texts. -/
theorem language_hint_blank_counterexample :
    " " ≠ "" ∧
    langScore " " Language.SPANISH ≥ langScore " " (best_language " ") * 0.8 ∧
    detect_language " " (some Language.SPANISH) = (Language.SPANISH, 0) ∧
    langScore " " Language.SPANISH ≠ 0 := by
  have hE : langScore " " Language.ENGLISH = 1/5 := by
    have h1 : ((lang_indicators Language.ENGLISH).filter
        (fun ind => substr ind (pyLower " "))).length = 0 := by decide
    have h2 : " ".toList.all isAsciiChar = true := by decide
    rw [langScore, h1, h2]
    simp +decide only [lang_script]
    norm_num [lang_indicators]
  have hH : langScore " " Language.HINDI = 0 := by
    have h1 : ((lang_indicators Language.HINDI).filter
        (fun ind => substr ind (pyLower " "))).length = 0 := by decide
    have h2 : " ".toList.any isDevanagariChar = false := by decide
    rw [langScore, h1, h2]
    simp +decide only [lang_script]
    norm_num [lang_indicators]
  have hG : langScore " " Language.GUJARATI = 0 := by
    have h1 : ((lang_indicators Language.GUJARATI).filter
        (fun ind => substr ind (pyLower " "))).length = 0 := by decide
    have h2 : " ".toList.any isGujaratiChar = false := by decide
    rw [langScore, h1, h2]
    simp +decide only [lang_script]
    norm_num [lang_indicators]
  have hS : langScore " " Language.SPANISH = 1/5 := by
    have h1 : ((lang_indicators Language.SPANISH).filter
        (fun ind => substr ind (pyLower " "))).length = 0 := by decide
    have h2 : " ".toList.all isAsciiChar = true := by decide
    rw [langScore, h1, h2]
    simp +decide only [lang_script]
    norm_num [lang_indicators]
  have hF : langScore " " Language.FRENCH = 1/5 := by
    have h1 : ((lang_indicators Language.FRENCH).filter
        (fun ind => substr ind (pyLower " "))).length = 0 := by decide
    have h2 : " ".toList.all isAsciiChar = true := by decide
    rw [langScore, h1, h2]
    simp +decide only [lang_script]
    norm_num [lang_indicators]
  have hscores : lang_scores " " =
      [(Language.ENGLISH, 1/5), (Language.HINDI, 0), (Language.GUJARATI, 0),
       (Language.SPANISH, 1/5), (Language.FRENCH, 1/5)] := by
    rw [lang_scores, langList]
    simp only [List.map, hE, hH, hG, hS, hF]
  have hbest : best_language " " = Language.ENGLISH := by
    rw [best_language, hscores, argmaxFirst]
    norm_num
  refine ⟨by decide, ?_, ?_, ?_⟩
  · rw [hbest, hE, hS]; norm_num
  · rw [detect_language, if_pos (by decide)]; rfl
  · rw [hS]; norm_num

/-- C8 (amended): when a hint is supplied on non-blank text (whitespace-only
input instead takes the blank early return at confidence 0) and the hint's
own score is at least 80% of the best-scoring language's score, language
detection returns the hint with the hint's own score (the looked-up score
equals `langScore`) as the reported confidence. -/
theorem language_hint_preferred
    (text : String) (h : Language)
    (hb : pyIsBlank text = false)
    (hhint : assocGetD (lang_scores text) h 0
      ≥ assocGetD (lang_scores text) (best_language text) 0 * 0.8) :
    detect_language text (some h) = (h, assocGetD (lang_scores text) h 0) ∧
    assocGetD (lang_scores text) h 0 = langScore text h := by
  constructor
  · rw [detect_language, hb]
    simp only [Bool.false_eq_true, if_false]
    rw [if_pos hhint]
  · cases h <;> simp [lang_scores, langList, assocGetD, List.find?]

/-- C8 witness: on `"the cat"` English scores best (14/45) but the Spanish
hint scores 3/10 ≥ 0.8 · 14/45, so the hint wins with its own score. -/
theorem language_hint_preferred_witness :
    detect_language "the cat" (some Language.SPANISH) =
      (Language.SPANISH, assocGetD (lang_scores "the cat") Language.SPANISH 0) := by
  have hE : langScore "the cat" Language.ENGLISH = 14/45 := by
    have h1 : ((lang_indicators Language.ENGLISH).filter
        (fun ind => substr ind (pyLower "the cat"))).length = 1 := by decide
    have h2 : "the cat".toList.all isAsciiChar = true := by decide
    rw [langScore, h1, h2]
    simp +decide only [lang_script]
    norm_num [lang_indicators]
  have hH : langScore "the cat" Language.HINDI = 0 := by
    have h1 : ((lang_indicators Language.HINDI).filter
        (fun ind => substr ind (pyLower "the cat"))).length = 0 := by decide
    have h2 : "the cat".toList.any isDevanagariChar = false := by decide
    rw [langScore, h1, h2]
    simp +decide only [lang_script]
    norm_num [lang_indicators]
  have hG : langScore "the cat" Language.GUJARATI = 0 := by
    have h1 : ((lang_indicators Language.GUJARATI).filter
        (fun ind => substr ind (pyLower "the cat"))).length = 0 := by decide
    have h2 : "the cat".toList.any isGujaratiChar = false := by decide
    rw [langScore, h1, h2]
    simp +decide only [lang_script]
    norm_num [lang_indicators]
  have hS : langScore "the cat" Language.SPANISH = 3/10 := by
    have h1 : ((lang_indicators Language.SPANISH).filter
        (fun ind => substr ind (pyLower "the cat"))).length = 1 := by decide
    have h2 : "the cat".toList.all isAsciiChar = true := by decide
    rw [langScore, h1, h2]
    simp +decide only [lang_script]
    norm_num [lang_indicators]
  have hF : langScore "the cat" Language.FRENCH = 1/5 := by
    have h1 : ((lang_indicators Language.FRENCH).filter
        (fun ind => substr ind (pyLower "the cat"))).length = 0 := by decide
    have h2 : "the cat".toList.all isAsciiChar = true := by decide
    rw [langScore, h1, h2]
    simp +decide only [lang_script]
    norm_num [lang_indicators]
  have hscores : lang_scores "the cat" =
      [(Language.ENGLISH, 14/45), (Language.HINDI, 0), (Language.GUJARATI, 0),
       (Language.SPANISH, 3/10), (Language.FRENCH, 1/5)] := by
    rw [lang_scores, langList]
    simp only [List.map, hE, hH, hG, hS, hF]
  have hbest : best_language "the cat" = Language.ENGLISH := by
    rw [best_language, hscores, argmaxFirst]
    norm_num
  exact (language_hint_preferred "the cat" Language.SPANISH (by decide)
    (by rw [hscores, hbest]; simp +decide only [assocGetD]; norm_num)).1

end Agent
